import Mathlib

/-!
Verification development for the jsonschema-rs repository.

The definitions below are shallow embeddings of the keyword validators in
`crates/jsonschema/src/keywords/` (required.rs, properties.rs, items.rs,
prefix_items.rs, unevaluated_properties.rs) and of the exit/reader logic of
`crates/jsonschema-cli/src/main.rs`.  JSON objects are modelled as
insertion-ordered association lists (serde_json is used with the
`preserve_order` feature: objects iterate in insertion order and keys are
unique).  Machine integers do not occur on the modelled paths; JSON numbers
are modelled as exact integers or exact decimals, which is enough to express
the draft-4 integer/decimal distinction.

Parts of the crate that the claims depend on but that are not part of the
keyword sources (the `SchemaNode` interface of node.rs, the
`EvaluationResult` constructors of validator.rs, the path capture of
paths.rs, the `is_integer` predicates of type_.rs) are modelled from the
specification; each such definition carries a doc comment saying so.
-/

/-- JSON numbers.  serde_json distinguishes numbers written as integer
literals from numbers written with a decimal point or exponent; `int` models
the former, `dec` models the latter by its exact rational value. -/
inductive JsonNum where
  | int (n : Int)
  | dec (q : ℚ)
deriving DecidableEq, Repr

/-- The JSON value model: null, bool, number, string, array, and
insertion-ordered object (association list with unique keys). -/
inductive Json where
  | null
  | bool (b : Bool)
  | num (n : JsonNum)
  | str (s : String)
  | arr (items : List Json)
  | obj (fields : List (String × Json))

/-- First-match association-list lookup, the model of `Map::get` of a
serde_json object (keys are unique, so first match is the match). -/
def mapGet {α : Type} (fields : List (String × α)) (k : String) : Option α :=
  match fields with
  | [] => none
  | kv :: rest => if kv.1 = k then some kv.2 else mapGet rest k

/-- Model of `Map::contains_key`. -/
def containsKey {α : Type} (fields : List (String × α)) (k : String) : Bool :=
  (mapGet fields k).isSome

/-- Whether a JSON value is an object. -/
def Json.isObj : Json → Bool
  | .obj _ => true
  | _ => false

/-- Whether a JSON value is an array. -/
def Json.isArr : Json → Bool
  | .arr _ => true
  | _ => false

/-- Whether a JSON value is a string (used by the `required` compile
dispatch, which demands an array of strings). -/
def Json.isStr : Json → Bool
  | .str _ => true
  | _ => false

/-- One location segment: a property name or an array index. -/
inductive Seg where
  | key (s : String)
  | idx (n : Nat)
deriving DecidableEq, Repr

/-- A materialized location (instance location, schema location or
evaluation path): a list of segments. -/
abbrev Location := List Seg

/-- Modelled from the spec: paths.rs is not among the sources.  A RefTracker
rewrites a schema location into an evaluation path when a `$ref` was
traversed.  Every claim in this development validates without references, so
the tracker argument is always `none`; the rewriting function itself is left
abstract. -/
def RefTracker := Location → Location

/-- Modelled from the spec: `capture_evaluation_path` returns the schema
location unchanged when no tracker is active, and otherwise lets the tracker
rewrite it (spec 4.1: the captured evaluation path begins with the
tracker's stored evaluation path). -/
def capture_evaluation_path (tracker : Option RefTracker) (location : Location) : Location :=
  match tracker with
  | none => location
  | some t => t location

/-- The JSON types named by type errors. -/
inductive JsonType where
  | integer
  | number
  | string
  | boolean
  | array
  | object
deriving DecidableEq, Repr

/-- Error kinds with their kind-specific payloads, restricted to the kinds
produced by the embedded validators.  The failing sub-instance carried by
`ValidationError` is omitted: no claim inspects it. -/
inductive ErrorKind where
  | required (property : String)
  | typeMismatch (t : JsonType)
  | falseSchema
  | unevaluatedProps (unexpected : List String)
deriving DecidableEq, Repr

/-- A validation error: schema location, evaluation path, instance location
and kind (spec 4.4 error contract, minus the failing sub-value). -/
structure VError where
  schemaLocation : Location
  evaluationPath : Location
  instanceLocation : Location
  kind : ErrorKind
deriving DecidableEq, Repr

/-- Modelled from the spec: evaluation.rs is not among the sources.  An
error description inside an `EvaluationResult` node: keyword plus message. -/
structure ErrorDescription where
  keyword : String
  message : String
deriving DecidableEq, Repr

/-- Modelled from the spec: validator.rs is not among the sources.  An
evaluation result node bears a verdict, optional annotation value, error
descriptions and child results (spec 3, `EvaluationResult`). -/
inductive EvaluationResult where
  | mk (valid : Bool) (anns : Option Json) (errors : List ErrorDescription)
      (children : List EvaluationResult)

/-- The verdict of an evaluation result node. -/
def EvaluationResult.valid : EvaluationResult → Bool
  | .mk v _ _ _ => v

/-- The annotation value of an evaluation result node. -/
def EvaluationResult.anns : EvaluationResult → Option Json
  | .mk _ a _ _ => a

/-- The error descriptions of an evaluation result node. -/
def EvaluationResult.errors : EvaluationResult → List ErrorDescription
  | .mk _ _ e _ => e

/-- The child results of an evaluation result node. -/
def EvaluationResult.children : EvaluationResult → List EvaluationResult
  | .mk _ _ _ c => c

/-- Modelled from the spec: a valid result with no annotations, errors or
children (`EvaluationResult::valid_empty`). -/
def EvaluationResult.valid_empty : EvaluationResult :=
  .mk true none [] []

/-- Modelled from the spec: an invalid result carrying the given error
descriptions and no annotations or children
(`EvaluationResult::invalid_empty`). -/
def EvaluationResult.invalid_empty (errs : List ErrorDescription) : EvaluationResult :=
  .mk false none errs []

/-- Modelled from the spec: a result node over child results; spec 3
invariant: the node is valid iff all children are valid
(`EvaluationResult::from_children`). -/
def EvaluationResult.from_children (children : List EvaluationResult) : EvaluationResult :=
  .mk (children.all EvaluationResult.valid) none [] children

/-- Modelled from the spec: attach an annotation value to a result node
(`result.annotate(Annotations::new(value))`). -/
def EvaluationResult.annotate : EvaluationResult → Json → EvaluationResult
  | .mk v _ e c, a => .mk v (some a) e c

/-- Modelled from the spec: node.rs is not among the sources.  A compiled
subschema is used by the keyword validators only through its four
operations, so it is embedded as that interface.  The RefTracker threading
into child calls is omitted: every claim validates with no tracker. -/
structure SchemaNode where
  is_valid : Json → Bool
  validate : Json → Location → Except VError Unit
  iter_errors : Json → Location → List VError
  evaluate : Json → Location → EvaluationResult

/-! ### required.rs -/

/-- Embeds `RequiredValidator::is_valid` (required.rs lines 39-50): non-objects
pass; objects first take the size shortcut `item.len() < required.len()`
and then check membership of every required name. -/
def RequiredValidator.is_valid (required : List String) (inst : Json) : Bool :=
  match inst with
  | .obj item =>
    if item.length < required.length then false
    else required.all (fun property_name => containsKey item property_name)
  | _ => true

/-- Embeds `RequiredValidator::validate` (required.rs lines 52-73): first missing
required name produces the error. -/
def RequiredValidator.validate (required : List String) (selfLoc : Location)
    (tracker : Option RefTracker) (inst : Json) (location : Location) :
    Except VError Unit :=
  match inst with
  | .obj item =>
    match required.find? (fun property_name => !(containsKey item property_name)) with
    | some property_name =>
      .error ⟨selfLoc, capture_evaluation_path tracker selfLoc, location,
        .required property_name⟩
    | none => .ok ()
  | _ => .ok ()

/-- Embeds `RequiredValidator::iter_errors` (required.rs lines 74-100): one error
per missing required name, in declaration order. -/
def RequiredValidator.iter_errors (required : List String) (selfLoc : Location)
    (tracker : Option RefTracker) (inst : Json) (location : Location) :
    List VError :=
  match inst with
  | .obj item =>
    (required.filter (fun property_name => !(containsKey item property_name))).map
      (fun property_name =>
        ⟨selfLoc, capture_evaluation_path tracker selfLoc, location,
          .required property_name⟩)
  | _ => []

/-- Embeds `SingleItemRequiredValidator::is_valid` (required.rs lines 138-147). -/
def SingleItemRequiredValidator.is_valid (value : String) (inst : Json) : Bool :=
  match inst with
  | .obj item =>
    if item.isEmpty then false else containsKey item value
  | _ => true

/-- Embeds `SingleItemRequiredValidator::validate` (required.rs lines 119-136). -/
def SingleItemRequiredValidator.validate (value : String) (selfLoc : Location)
    (tracker : Option RefTracker) (inst : Json) (location : Location) :
    Except VError Unit :=
  if !(SingleItemRequiredValidator.is_valid value inst) then
    .error ⟨selfLoc, capture_evaluation_path tracker selfLoc, location, .required value⟩
  else .ok ()

/-- Embeds `Required2Validator::is_valid` (required.rs lines 173-181): the size
shortcut `item.len() >= 2` plus membership of both names. -/
def Required2Validator.is_valid (first second : String) (inst : Json) : Bool :=
  match inst with
  | .obj item =>
    item.length ≥ 2 && containsKey item first && containsKey item second
  | _ => true

/-- Embeds `Required2Validator::validate` (required.rs lines 183-211). -/
def Required2Validator.validate (first second : String) (selfLoc : Location)
    (tracker : Option RefTracker) (inst : Json) (location : Location) :
    Except VError Unit :=
  match inst with
  | .obj item =>
    if !(containsKey item first) then
      .error ⟨selfLoc, capture_evaluation_path tracker selfLoc, location, .required first⟩
    else if !(containsKey item second) then
      .error ⟨selfLoc, capture_evaluation_path tracker selfLoc, location, .required second⟩
    else .ok ()
  | _ => .ok ()

/-- Embeds `Required2Validator::iter_errors` (required.rs lines 213-247): an error
for each of the two names missing, first then second. -/
def Required2Validator.iter_errors (first second : String) (selfLoc : Location)
    (tracker : Option RefTracker) (inst : Json) (location : Location) :
    List VError :=
  match inst with
  | .obj item =>
    let eval_path := capture_evaluation_path tracker selfLoc
    (if !(containsKey item first) then
      [⟨selfLoc, eval_path, location, .required first⟩] else []) ++
    (if !(containsKey item second) then
      [⟨selfLoc, eval_path, location, .required second⟩] else [])
  | _ => []

/-- Embeds `Required3Validator::is_valid` (required.rs lines 276-286). -/
def Required3Validator.is_valid (first second third : String) (inst : Json) : Bool :=
  match inst with
  | .obj item =>
    item.length ≥ 3 && containsKey item first && containsKey item second &&
      containsKey item third
  | _ => true

/-- The validator variant chosen by `required::compile_with_path`
(required.rs lines 395-466). -/
inductive RequiredChoice where
  | single
  | two
  | three
  | many
  | compileTypeError
deriving DecidableEq, Repr

/-- Embeds `required::compile_with_path` dispatch (required.rs lines 395-466):
arrays of length 1, 2, 3 pick the unrolled validators (erroring when a
member is not a string); every other array picks `RequiredValidator`, whose
own compile errors on the first non-string member. -/
def required_compile_choice (items : List Json) : RequiredChoice :=
  match items with
  | [i1] => if i1.isStr then .single else .compileTypeError
  | [i1, i2] => if i1.isStr && i2.isStr then .two else .compileTypeError
  | [i1, i2, i3] =>
    if i1.isStr && i2.isStr && i3.isStr then .three else .compileTypeError
  | l => if l.all Json.isStr then .many else .compileTypeError

/-! ### properties.rs -/

/-- Sequential child validation shared by the `properties` validators'
`validate` implementations: the first child error aborts (the `?` operator
in the Rust loops). -/
def validatePropsSeq (properties : List (String × SchemaNode))
    (fields : List (String × Json)) (location : Location) : Except VError Unit :=
  match properties with
  | [] => .ok ()
  | p :: rest =>
    match mapGet fields p.1 with
    | some v =>
      match p.2.validate v (location ++ [Seg.key p.1]) with
      | .ok _ => validatePropsSeq rest fields location
      | .error e => .error e
    | none => validatePropsSeq rest fields location

/-- Embeds `SmallPropertiesValidator::is_valid` (properties.rs lines 97-111):
iterate the schema's property list, validating each property present in the
instance. -/
def SmallPropertiesValidator.is_valid (properties : List (String × SchemaNode))
    (inst : Json) : Bool :=
  match inst with
  | .obj item =>
    properties.all (fun p =>
      match mapGet item p.1 with
      | some prop => p.2.is_valid prop
      | none => true)
  | _ => true

/-- Embeds `SmallPropertiesValidator::validate` (properties.rs lines 113-128). -/
def SmallPropertiesValidator.validate (properties : List (String × SchemaNode))
    (inst : Json) (location : Location) : Except VError Unit :=
  match inst with
  | .obj item => validatePropsSeq properties item location
  | _ => .ok ()

/-- Embeds `SmallPropertiesValidator::iter_errors` (properties.rs lines 131-150):
errors of every present property, in schema declaration order. -/
def SmallPropertiesValidator.iter_errors (properties : List (String × SchemaNode))
    (inst : Json) (location : Location) : List VError :=
  match inst with
  | .obj item =>
    (properties.map (fun p =>
      match mapGet item p.1 with
      | some prop => p.2.iter_errors prop (location ++ [Seg.key p.1])
      | none => [])).flatten
  | _ => []

/-- Embeds `SmallPropertiesValidator::evaluate` (properties.rs lines 152-175):
child results for every present property plus an annotation listing the
matched property names. -/
def SmallPropertiesValidator.evaluate (properties : List (String × SchemaNode))
    (inst : Json) (location : Location) : EvaluationResult :=
  match inst with
  | .obj props =>
    let matched_props :=
      (properties.filter (fun p => containsKey props p.1)).map Prod.fst
    let children := properties.filterMap (fun p =>
      (mapGet props p.1).map (fun prop => p.2.evaluate prop (location ++ [Seg.key p.1])))
    (EvaluationResult.from_children children).annotate
      (Json.arr (matched_props.map Json.str))
  | _ => EvaluationResult.valid_empty

/-- Embeds `BigPropertiesValidator::is_valid` (properties.rs lines 312-326):
iterate the instance's properties, looking each up in the schema's hash
map (embedded as association-list lookup; compiled keys are unique). -/
def BigPropertiesValidator.is_valid (properties : List (String × SchemaNode))
    (inst : Json) : Bool :=
  match inst with
  | .obj item =>
    item.all (fun kv =>
      match mapGet properties kv.1 with
      | some node => node.is_valid kv.2
      | none => true)
  | _ => true

/-- Sequential instance-order child validation used by
`BigPropertiesValidator::validate`. -/
def validateInstancePropsSeq (properties : List (String × SchemaNode))
    (fields : List (String × Json)) (location : Location) : Except VError Unit :=
  match fields with
  | [] => .ok ()
  | kv :: rest =>
    match mapGet properties kv.1 with
    | some node =>
      match node.validate kv.2 (location ++ [Seg.key kv.1]) with
      | .ok _ => validateInstancePropsSeq properties rest location
      | .error e => .error e
    | none => validateInstancePropsSeq properties rest location

/-- Embeds `BigPropertiesValidator::validate` (properties.rs lines 328-343). -/
def BigPropertiesValidator.validate (properties : List (String × SchemaNode))
    (inst : Json) (location : Location) : Except VError Unit :=
  match inst with
  | .obj item => validateInstancePropsSeq properties item location
  | _ => .ok ()

/-- Embeds `BigPropertiesValidator::iter_errors` (properties.rs lines 345-365):
errors of every covered property, in instance insertion order. -/
def BigPropertiesValidator.iter_errors (properties : List (String × SchemaNode))
    (inst : Json) (location : Location) : List VError :=
  match inst with
  | .obj item =>
    (item.map (fun kv =>
      match mapGet properties kv.1 with
      | some node => node.iter_errors kv.2 (location ++ [Seg.key kv.1])
      | none => [])).flatten
  | _ => []

/-- Embeds `SmallPropertiesWithRequired2Validator::is_valid` (properties.rs lines
179-198): required fast-fail with the size shortcut `item.len() < 2`, then
property validation. -/
def SmallPropertiesWithRequired2Validator.is_valid
    (properties : List (String × SchemaNode)) (first second : String)
    (inst : Json) : Bool :=
  match inst with
  | .obj item =>
    if item.length < 2 || !(containsKey item first) || !(containsKey item second) then
      false
    else
      properties.all (fun p =>
        match mapGet item p.1 with
        | some prop => p.2.is_valid prop
        | none => true)
  | _ => true

/-- Embeds `SmallPropertiesWithRequired2Validator::validate` (properties.rs lines
200-235): required errors first (no size shortcut), then sequential
property validation. -/
def SmallPropertiesWithRequired2Validator.validate
    (properties : List (String × SchemaNode)) (first second : String)
    (required_location : Location) (tracker : Option RefTracker)
    (inst : Json) (location : Location) : Except VError Unit :=
  match inst with
  | .obj item =>
    if !(containsKey item first) then
      .error ⟨required_location, capture_evaluation_path tracker required_location,
        location, .required first⟩
    else if !(containsKey item second) then
      .error ⟨required_location, capture_evaluation_path tracker required_location,
        location, .required second⟩
    else validatePropsSeq properties item location
  | _ => .ok ()

/-- Embeds `SmallPropertiesWithRequired2Validator::iter_errors` (properties.rs
lines 237-279): required errors for the missing names, then the errors of
every present property in schema declaration order. -/
def SmallPropertiesWithRequired2Validator.iter_errors
    (properties : List (String × SchemaNode)) (first second : String)
    (required_location : Location) (tracker : Option RefTracker)
    (inst : Json) (location : Location) : List VError :=
  match inst with
  | .obj item =>
    let eval_path := capture_evaluation_path tracker required_location
    ((if !(containsKey item first) then
        [⟨required_location, eval_path, location, .required first⟩] else []) ++
      (if !(containsKey item second) then
        [⟨required_location, eval_path, location, .required second⟩] else [])) ++
    (properties.map (fun p =>
      match mapGet item p.1 with
      | some prop => p.2.iter_errors prop (location ++ [Seg.key p.1])
      | none => [])).flatten
  | _ => []

/-- Embeds `SmallPropertiesWithRequired2Validator::evaluate` (properties.rs lines
281-308): a missing required name yields `invalid_empty(Vec::new())` — an
invalid result with no error descriptions, annotations or children;
otherwise child results plus the matched-properties annotation. -/
def SmallPropertiesWithRequired2Validator.evaluate
    (properties : List (String × SchemaNode)) (first second : String)
    (inst : Json) (location : Location) : EvaluationResult :=
  match inst with
  | .obj props =>
    if !(containsKey props first) || !(containsKey props second) then
      EvaluationResult.invalid_empty []
    else
      let matched_props :=
        (properties.filter (fun p => containsKey props p.1)).map Prod.fst
      let children := properties.filterMap (fun p =>
        (mapGet props p.1).map (fun prop => p.2.evaluate prop (location ++ [Seg.key p.1])))
      (EvaluationResult.from_children children).annotate
        (Json.arr (matched_props.map Json.str))
  | _ => EvaluationResult.valid_empty

/-- Modelled from the spec: the `properties` hash-map size threshold
(`crate::properties::HASHMAP_THRESHOLD`, not among the sources; spec 4.3:
"size threshold (approximately 40 entries)"). -/
def HASHMAP_THRESHOLD : Nat := 40

/-- Embeds `extract_required2` (properties.rs lines 395-410): the fused validator
applies when there is no `patternProperties` and `required` is an array of
exactly two strings. -/
def extract_required2 (parent : List (String × Json)) : Option (String × String) :=
  if containsKey parent "patternProperties" then none
  else
    match mapGet parent "required" with
    | some (.arr [.str first, .str second]) => some (first, second)
    | _ => none

/-- The validator variant chosen by `properties::compile`. -/
inductive PropertiesChoice where
  | handledByAdditionalProperties
  | fusedWithRequired2 (first second : String)
  | small
  | big
  | compileTypeError
deriving DecidableEq, Repr

/-- Embeds `properties::compile` dispatch (properties.rs lines 412-447):
`additionalProperties: false` or an object hands `properties` handling to
the additional-properties validator; otherwise maps below the hash-map
threshold use the fused validator when `extract_required2` fires, else the
linear-scan validator; larger maps use the hash-map validator. -/
def properties_compile_choice (parent : List (String × Json)) (schema : Json) :
    PropertiesChoice :=
  match mapGet parent "additionalProperties" with
  | some (.bool false) => .handledByAdditionalProperties
  | some (.obj _) => .handledByAdditionalProperties
  | _ =>
    match schema with
    | .obj map =>
      if map.length < HASHMAP_THRESHOLD then
        match extract_required2 parent with
        | some (first, second) => .fusedWithRequired2 first second
        | none => .small
      else .big
    | _ => .compileTypeError

/-! ### items.rs -/

/-- The supported drafts. -/
inductive Draft where
  | draft4
  | draft6
  | draft7
  | draft201909
  | draft202012
deriving DecidableEq, Repr

/-- Modelled from the spec: `keywords::type_::is_integer` is not among the
sources.  Drafts 6 and later treat a number as an integer when it is an
integer literal or a decimal with zero fractional part (spec 3: "later
drafts treat a decimal with zero fractional part as integer"). -/
def type_is_integer (n : JsonNum) : Bool :=
  match n with
  | .int _ => true
  | .dec q => q.den == 1

/-- Modelled from the spec: `keywords::legacy::type_draft_4::is_integer` is
not among the sources.  Draft 4 treats any number written with a decimal
point as a non-integer (spec 3: "draft 4 treats `1.0` as non-integer"). -/
def type_draft4_is_integer (n : JsonNum) : Bool :=
  match n with
  | .int _ => true
  | .dec _ => false

/-- Sequential per-index child validation used by the items validators'
`validate` implementations. -/
def validateItemsSeq (node : SchemaNode) (items : List Json) (idx : Nat)
    (location : Location) : Except VError Unit :=
  match items with
  | [] => .ok ()
  | v :: rest =>
    match node.validate v (location ++ [Seg.idx idx]) with
    | .ok _ => validateItemsSeq node rest (idx + 1) location
    | .error e => .error e

/-- Embeds `ItemsObjectValidator::is_valid` (items.rs lines 111-118). -/
def ItemsObjectValidator.is_valid (node : SchemaNode) (inst : Json) : Bool :=
  match inst with
  | .arr items => items.all node.is_valid
  | _ => true

/-- Embeds `ItemsObjectValidator::validate` (items.rs lines 120-134). -/
def ItemsObjectValidator.validate (node : SchemaNode) (inst : Json)
    (location : Location) : Except VError Unit :=
  match inst with
  | .arr items => validateItemsSeq node items 0 location
  | _ => .ok ()

/-- Embeds `ItemsObjectValidator::iter_errors` (items.rs lines 136-155). -/
def ItemsObjectValidator.iter_errors (node : SchemaNode) (inst : Json)
    (location : Location) : List VError :=
  match inst with
  | .arr items =>
    (items.enum.map (fun p => node.iter_errors p.2 (location ++ [Seg.idx p.1]))).flatten
  | _ => []

/-- Embeds `ItemsIntegerTypeValidator::is_valid` (items.rs lines 507-521): every
element must be a number satisfying the post-draft-4 integer predicate. -/
def ItemsIntegerTypeValidator.is_valid (inst : Json) : Bool :=
  match inst with
  | .arr items =>
    items.all (fun item =>
      match item with
      | .num n => type_is_integer n
      | _ => false)
  | _ => true

/-- Embeds `ItemsIntegerTypeValidator::iter_errors` (items.rs lines 551-583): a
`Type` error naming `Integer` for every non-integer element, at its index. -/
def ItemsIntegerTypeValidator.iter_errors (selfLoc : Location)
    (tracker : Option RefTracker) (inst : Json) (location : Location) :
    List VError :=
  match inst with
  | .arr items =>
    (items.enum.filter (fun p =>
      match p.2 with
      | .num n => !(type_is_integer n)
      | _ => true)).map (fun p =>
        ⟨selfLoc, capture_evaluation_path tracker selfLoc,
          location ++ [Seg.idx p.1], .typeMismatch .integer⟩)
  | _ => []

/-- Embeds `ItemsIntegerTypeValidatorDraft4::is_valid` (items.rs lines 638-652):
every element must be a number satisfying the stricter draft-4 integer
predicate. -/
def ItemsIntegerTypeValidatorDraft4.is_valid (inst : Json) : Bool :=
  match inst with
  | .arr items =>
    items.all (fun item =>
      match item with
      | .num n => type_draft4_is_integer n
      | _ => false)
  | _ => true

/-- Embeds `ItemsIntegerTypeValidatorDraft4::iter_errors` (items.rs lines
682-714). -/
def ItemsIntegerTypeValidatorDraft4.iter_errors (selfLoc : Location)
    (tracker : Option RefTracker) (inst : Json) (location : Location) :
    List VError :=
  match inst with
  | .arr items =>
    (items.enum.filter (fun p =>
      match p.2 with
      | .num n => !(type_draft4_is_integer n)
      | _ => true)).map (fun p =>
        ⟨selfLoc, capture_evaluation_path tracker selfLoc,
          location ++ [Seg.idx p.1], .typeMismatch .integer⟩)
  | _ => []

/-- Embeds `get_simple_type_schema` (items.rs lines 864-871): a subschema of the
shape `{"type": "<name>"}` with exactly one key. -/
def get_simple_type_schema (schema : Json) : Option String :=
  match schema with
  | .obj fields =>
    if fields.length ≠ 1 then none
    else
      match mapGet fields "type" with
      | some (.str s) => some s
      | _ => none
  | _ => none

/-- The validator variant chosen by `items::compile` for an object
subschema with no `prefixItems` sibling. -/
inductive ItemsChoice where
  | numberType
  | stringType
  | integerType
  | integerTypeDraft4
  | booleanType
  | objectValidator
deriving DecidableEq, Repr

/-- Embeds `items::compile` specialization dispatch (items.rs lines 874-911,
object-subschema arm with no `prefixItems` sibling): a simple
`{"type": T}` subschema picks the inlined per-type validator, with the
draft-4 integer variant exactly when the active draft is draft 4. -/
def items_compile_simple_choice (draft : Draft) (schema : Json) : ItemsChoice :=
  match get_simple_type_schema schema with
  | some type_name =>
    if type_name = "number" then .numberType
    else if type_name = "string" then .stringType
    else if type_name = "integer" then
      if draft = .draft4 then .integerTypeDraft4 else .integerType
    else if type_name = "boolean" then .booleanType
    else .objectValidator
  | none => .objectValidator

/-! ### prefix_items.rs -/

/-- Sequential pairwise child validation used by
`PrefixItemsValidator::validate`. -/
def validatePrefixSeq (schemas : List SchemaNode) (items : List Json)
    (idx : Nat) (location : Location) : Except VError Unit :=
  match schemas, items with
  | schema :: srest, v :: irest =>
    match schema.validate v (location ++ [Seg.idx idx]) with
    | .ok _ => validatePrefixSeq srest irest (idx + 1) location
    | .error e => .error e
  | _, _ => .ok ()

/-- Embeds `PrefixItemsValidator::is_valid` (prefix_items.rs lines 35-47): zip the
prefix schemas with the array elements. -/
def PrefixItemsValidator.is_valid (schemas : List SchemaNode) (inst : Json) : Bool :=
  match inst with
  | .arr items =>
    (schemas.zip items).all (fun p => p.1.is_valid p.2)
  | _ => true

/-- Embeds `PrefixItemsValidator::validate` (prefix_items.rs lines 49-62). -/
def PrefixItemsValidator.validate (schemas : List SchemaNode) (inst : Json)
    (location : Location) : Except VError Unit :=
  match inst with
  | .arr items => validatePrefixSeq schemas items 0 location
  | _ => .ok ()

/-- Embeds `PrefixItemsValidator::iter_errors` (prefix_items.rs lines 64-80). -/
def PrefixItemsValidator.iter_errors (schemas : List SchemaNode) (inst : Json)
    (location : Location) : List VError :=
  match inst with
  | .arr items =>
    ((schemas.zip items).enum.map (fun p =>
      p.2.1.iter_errors p.2.2 (location ++ [Seg.idx p.1]))).flatten
  | _ => []

/-! ### unevaluated_properties.rs -/

/-- Embeds `DefaultPropertiesFilter` (unevaluated_properties.rs lines 452-464),
the sidecar filter compiled next to a subschema containing
`unevaluatedProperties` (draft 2020-12 and pre-2019 defaults).  Field order
follows the Rust struct.  `patternProperties` regexes are embedded as
string predicates; the `ReferenceFilter`/`LazyReference` indirection of the
`ref` and `dynamicRef` fields resolves to another filter, embedded
directly (the lazy arm memoizes the identical filter, and every claim uses
an acyclic schema). -/
inductive PropsFilter where
  | mk (unevaluated : Option SchemaNode)
      (additional : Option SchemaNode)
      (properties : List (String × SchemaNode))
      (dependent : List (String × PropsFilter))
      (patternProperties : List ((String → Bool) × SchemaNode))
      (refFilter : Option PropsFilter)
      (dynamicRef : Option PropsFilter)
      (conditional : Option (SchemaNode × PropsFilter × Option PropsFilter × Option PropsFilter))
      (allOf : Option (List (SchemaNode × PropsFilter)))
      (anyOf : Option (List (SchemaNode × PropsFilter)))
      (oneOf : Option (List (SchemaNode × PropsFilter)))

/-- The `unevaluated` field of a filter
(`PropertiesFilter::unevaluated`). -/
def PropsFilter.unevaluated : PropsFilter → Option SchemaNode
  | .mk u _ _ _ _ _ _ _ _ _ _ => u

/-- The evaluated-property set is consulted only through membership, so it
is embedded as a duplicate-free list; insertion order is immaterial. -/
def insertProp (acc : List String) (p : String) : List String :=
  if p ∈ acc then acc else acc ++ [p]

/-- The pattern-properties step of the per-property loop
(unevaluated_properties.rs lines 684-688): mark the property when any
pattern matches its name, regardless of the pattern subschema. -/
def markPatternsStep (patterns : List ((String → Bool) × SchemaNode))
    (property : String) (acc : List String) : List String :=
  patterns.foldl (fun a pr => if pr.1 property then insertProp a property else a) acc

/-- The unevaluated-subschema step of the per-property loop
(unevaluated_properties.rs lines 678-683): mark and stop when the
`unevaluatedProperties` subschema accepts the value, else fall through to
the patterns. -/
def markUnevalStep (unevaluated : Option SchemaNode)
    (patterns : List ((String → Bool) × SchemaNode))
    (property : String) (value : Json) (acc : List String) : List String :=
  match unevaluated with
  | some u =>
    if u.is_valid value then insertProp acc property
    else markPatternsStep patterns property acc
  | none => markPatternsStep patterns property acc

/-- One iteration of the per-property loop of
`DefaultPropertiesFilter::mark_evaluated_properties`
(unevaluated_properties.rs lines 666-689): the `properties` entries whose
subschema accepts the value mark the property; a present-and-accepting
`additionalProperties` subschema marks it and skips the rest (`continue`),
a present-but-rejecting one falls through; likewise for the
`unevaluatedProperties` subschema; finally any matching pattern marks it. -/
def markOneProperty (properties : List (String × SchemaNode))
    (additional unevaluated : Option SchemaNode)
    (patterns : List ((String → Bool) × SchemaNode))
    (property : String) (value : Json) (acc : List String) : List String :=
  let acc := properties.foldl
    (fun a pn => if property = pn.1 && pn.2.is_valid value then insertProp a property else a)
    acc
  match additional with
  | some addl =>
    if addl.is_valid value then insertProp acc property
    else markUnevalStep unevaluated patterns property value acc
  | none => markUnevalStep unevaluated patterns property value acc

mutual

/-- Embeds `DefaultPropertiesFilter::mark_evaluated_properties`
(unevaluated_properties.rs lines 652-737), in state-passing style over the
evaluated-set accumulator: `$ref` and `$dynamicRef` filters mark first;
then, on objects, the per-property loop and the applicable
`dependentSchemas` filters; then the conditional filter; then `allOf`
(marking every branch when all branch schemas accept the instance),
`anyOf` (marking every branch when at least one branch schema accepts),
and `oneOf` (marking the first accepting branch when exactly one
accepts). -/
def PropsFilter.mark_evaluated_properties : PropsFilter → Json → List String → List String
  | .mk unevaluated additional properties dependent patternProps refFilter
      dynamicRef conditional allOf anyOf oneOf, inst, acc =>
    let acc := markFilterOpt refFilter inst acc
    let acc := markFilterOpt dynamicRef inst acc
    let acc :=
      match inst with
      | .obj objFields =>
        let acc := objFields.foldl
          (fun a kv => markOneProperty properties additional unevaluated patternProps kv.1 kv.2 a)
          acc
        markDependentList dependent objFields inst acc
      | _ => acc
    let acc := markConditionalOpt conditional inst acc
    let acc := markAllOfOpt allOf inst acc
    let acc := markAnyOfOpt anyOf inst acc
    markOneOfOpt oneOf inst acc

/-- Marking through an optional sub-filter (`$ref`/`$dynamicRef`/`then`/
`else` arms). -/
def markFilterOpt : Option PropsFilter → Json → List String → List String
  | none, _, acc => acc
  | some f, inst, acc => f.mark_evaluated_properties inst acc

/-- The `dependentSchemas` loop (unevaluated_properties.rs lines 690-695):
each filter whose trigger property is present in the object marks. -/
def markDependentList : List (String × PropsFilter) → List (String × Json) → Json →
    List String → List String
  | [], _, _, acc => acc
  | kv :: rest, objFields, inst, acc =>
    let acc :=
      if containsKey objFields kv.1 then kv.2.mark_evaluated_properties inst acc else acc
    markDependentList rest objFields inst acc

/-- Embeds `ConditionalFilter::mark_evaluated_properties`
(unevaluated_properties.rs lines 787-802): when the `if` schema accepts,
the `if` filter and the `then` filter mark; otherwise the `else` filter
marks. -/
def markConditionalOpt :
    Option (SchemaNode × PropsFilter × Option PropsFilter × Option PropsFilter) →
    Json → List String → List String
  | none, _, acc => acc
  | some (condition, ifF, thenF, elseF), inst, acc =>
    if condition.is_valid inst then
      markFilterOpt thenF inst (ifF.mark_evaluated_properties inst acc)
    else
      markFilterOpt elseF inst acc

/-- Embeds `CombinatorFilter::mark_evaluated_properties`
(unevaluated_properties.rs lines 749-757): every branch filter marks. -/
def markCombList : List (SchemaNode × PropsFilter) → Json → List String → List String
  | [], _, acc => acc
  | p :: rest, inst, acc => markCombList rest inst (p.2.mark_evaluated_properties inst acc)

/-- The `allOf` arm (unevaluated_properties.rs lines 702-710): all branch
filters mark when every branch schema accepts the instance. -/
def markAllOfOpt : Option (List (SchemaNode × PropsFilter)) → Json → List String → List String
  | none, _, acc => acc
  | some subschemas, inst, acc =>
    if subschemas.all (fun p => p.1.is_valid inst) then markCombList subschemas inst acc
    else acc

/-- The `anyOf` arm (unevaluated_properties.rs lines 712-720): all branch
filters mark — including the unsatisfied branches — as soon as at least one
branch schema accepts the instance. -/
def markAnyOfOpt : Option (List (SchemaNode × PropsFilter)) → Json → List String → List String
  | none, _, acc => acc
  | some subschemas, inst, acc =>
    if subschemas.any (fun p => p.1.is_valid inst) then markCombList subschemas inst acc
    else acc

/-- The first accepting `oneOf` branch marks (the loop-and-break of
unevaluated_properties.rs lines 729-734). -/
def markFirstValid : List (SchemaNode × PropsFilter) → Json → List String → List String
  | [], _, acc => acc
  | p :: rest, inst, acc =>
    if p.1.is_valid inst then p.2.mark_evaluated_properties inst acc
    else markFirstValid rest inst acc

/-- The `oneOf` arm (unevaluated_properties.rs lines 722-736): marking
happens only when exactly one branch schema accepts, and then only that
branch's filter marks. -/
def markOneOfOpt : Option (List (SchemaNode × PropsFilter)) → Json → List String → List String
  | none, _, acc => acc
  | some subschemas, inst, acc =>
    if subschemas.countP (fun p => p.1.is_valid inst) = 1 then
      markFirstValid subschemas inst acc
    else acc

end

/-- The `PropertiesFilter::is_valid` trait default
(unevaluated_properties.rs lines 26-30): the `unevaluatedProperties`
subschema accepts the value (absent subschema rejects). -/
def PropsFilter.is_valid (f : PropsFilter) (inst : Json) : Bool :=
  match f.unevaluated with
  | some u => u.is_valid inst
  | none => false

/-- Embeds `UnevaluatedPropertiesValidator::is_valid` (unevaluated_properties.rs
lines 86-99): every property must be marked evaluated or accepted by the
`unevaluatedProperties` subschema. -/
def UnevaluatedPropertiesValidator.is_valid (filter : PropsFilter) (inst : Json) : Bool :=
  match inst with
  | .obj properties =>
    let evaluated := filter.mark_evaluated_properties (Json.obj properties) []
    properties.all (fun kv => evaluated.contains kv.1 || filter.is_valid kv.2)
  | _ => true

/-- Embeds `UnevaluatedPropertiesValidator::validate` (unevaluated_properties.rs
lines 58-84): the not-evaluated, not-accepted properties are collected in
insertion order and grouped into one `UnevaluatedProperties` error. -/
def UnevaluatedPropertiesValidator.validate (filter : PropsFilter)
    (selfLoc : Location) (inst : Json) (location : Location) :
    Except VError Unit :=
  match inst with
  | .obj properties =>
    let evaluated := filter.mark_evaluated_properties (Json.obj properties) []
    let unevaluated :=
      (properties.filter (fun kv =>
        !(evaluated.contains kv.1) && !(filter.is_valid kv.2))).map Prod.fst
    if unevaluated.isEmpty then .ok ()
    else .error ⟨selfLoc, selfLoc, location, .unevaluatedProps unevaluated⟩
  | _ => .ok ()

/-- Modelled from the spec: the `Validate` trait's default `iter_errors`
(validator.rs, not among the sources) wraps `validate`; for this validator
all failing properties are already grouped into the single error that
`validate` returns. -/
def UnevaluatedPropertiesValidator.iter_errors (filter : PropsFilter)
    (selfLoc : Location) (inst : Json) (location : Location) : List VError :=
  match UnevaluatedPropertiesValidator.validate filter selfLoc inst location with
  | .ok _ => []
  | .error e => [e]

/-! ### jsonschema-cli/src/main.rs -/

/-- The CLI output modes (`enum Output`, main.rs lines 115-121). -/
inductive Output where
  | text
  | flag
  | list
  | hierarchical
deriving DecidableEq, Repr

/-- Which parser a reader function applies to a file. -/
inductive ReaderKind where
  | jsonOnly
  | yamlReader
deriving DecidableEq, Repr

/-- The extension test of `read_json_or_yaml` (main.rs lines 237-246):
YAML parsing is chosen exactly for the extensions `yaml` and `yml`. -/
def extensionIsYaml (ext : Option String) : Bool :=
  match ext with
  | some e => e = "yaml" || e = "yml"
  | none => false

/-- Embeds `read_json_or_yaml` (main.rs lines 232-253): parse as YAML when the
file extension is `.yaml`/`.yml`, else as JSON. -/
def read_json_or_yaml_reader (ext : Option String) : ReaderKind :=
  if extensionIsYaml ext then .yamlReader else .jsonOnly

/-- The reader `validate_instances` applies to an instance file
(main.rs lines 430-481): the text arm calls `read_json_or_yaml`, while the
structured arms (flag, list, hierarchical) call the JSON-only `read_json`. -/
def instance_reader_for (output : Output) (ext : Option String) : ReaderKind :=
  match output with
  | .text => read_json_or_yaml_reader ext
  | _ => .jsonOnly

/-- The reader applied to the schema file: `validate_instances` and
`validate_schema_meta` always call `read_json` on the schema path
(main.rs lines 371 and 417), in every output mode. -/
def schema_reader_for (_output : Output) (_ext : Option String) : ReaderKind :=
  .jsonOnly

/-- The success flag computed by `validate_instances` (main.rs lines
406-500): a schema build error forces failure; otherwise each instance
verdict (empty `iter_errors` in text mode, `flag().valid` in the
structured modes) must hold. -/
def validate_instances_success (buildOk : Bool) (verdicts : List Bool) : Bool :=
  buildOk && verdicts.all id

/-- What the process does on exit: the exit code, and the error line
printed when an internal error occurred. -/
structure CliOutcome where
  exitCode : Nat
  printed : Option String
deriving DecidableEq, Repr

/-- The exit mapping of `main` (main.rs lines 523-538 and 541-554): a
validation run returning `Ok(true)` exits 0; `Ok(false)` exits 1; an
internal error prints `Error: <msg>` and exits 1. -/
def main_outcome (result : Except String Bool) : CliOutcome :=
  match result with
  | .ok true => ⟨0, none⟩
  | .ok false => ⟨1, none⟩
  | .error e => ⟨1, some ("Error: " ++ e)⟩

/-! ### Concrete schema nodes used by the claims

The compiler (compiler.rs) is not among the sources; the concrete compiled
nodes below assemble the embedded keyword validators by hand, following
spec 3: a `SchemaNode` owns its keyword validators, a `true` schema is a
no-op and a `false` schema always fails with kind `FalseSchema`. -/

/-- The compiled `true` schema: accepts everything, no errors. -/
def trueNode : SchemaNode where
  is_valid := fun _ => true
  validate := fun _ _ => .ok ()
  iter_errors := fun _ _ => []
  evaluate := fun _ _ => EvaluationResult.valid_empty

/-- The compiled `false` schema at a given schema location: rejects
everything with a `FalseSchema` error. -/
def falseNode (selfLoc : Location) : SchemaNode where
  is_valid := fun _ => false
  validate := fun _ loc => .error ⟨selfLoc, selfLoc, loc, .falseSchema⟩
  iter_errors := fun _ loc => [⟨selfLoc, selfLoc, loc, .falseSchema⟩]
  evaluate := fun _ _ => EvaluationResult.invalid_empty [⟨"false", "schema is false"⟩]

/-- A compiled subschema consisting of a single `properties` keyword below
the hash-map threshold, packaged as a node. -/
def smallPropertiesNode (properties : List (String × SchemaNode)) : SchemaNode where
  is_valid := SmallPropertiesValidator.is_valid properties
  validate := SmallPropertiesValidator.validate properties
  iter_errors := SmallPropertiesValidator.iter_errors properties
  evaluate := SmallPropertiesValidator.evaluate properties

/-- A compiled subschema consisting of a single-item `required` keyword,
packaged as a node; its `iter_errors` is the trait default wrapping
`validate` (the specialized validator defines no `iter_errors` of its
own). -/
def singleRequiredNode (value : String) (selfLoc : Location) : SchemaNode where
  is_valid := SingleItemRequiredValidator.is_valid value
  validate := fun j loc => SingleItemRequiredValidator.validate value selfLoc none j loc
  iter_errors := fun j loc =>
    match SingleItemRequiredValidator.validate value selfLoc none j loc with
    | .ok _ => []
    | .error e => [e]
  evaluate := fun j _ =>
    if SingleItemRequiredValidator.is_valid value j then EvaluationResult.valid_empty
    else EvaluationResult.invalid_empty []

/-- A compiled subschema owning two keyword validators in order (spec 3:
a `SchemaNode` owns an ordered list of keyword validators; it is valid iff
all of them accept, `validate` stops at the first error, `iter_errors`
concatenates). -/
def seqNode (a b : SchemaNode) : SchemaNode where
  is_valid := fun j => a.is_valid j && b.is_valid j
  validate := fun j loc =>
    match a.validate j loc with
    | .ok _ => b.validate j loc
    | .error e => .error e
  iter_errors := fun j loc => a.iter_errors j loc ++ b.iter_errors j loc
  evaluate := fun j loc =>
    EvaluationResult.from_children [a.evaluate j loc, b.evaluate j loc]

/-! #### Concrete inputs for the ordering claim (properties variants) -/

/-- Two schema properties `a`, `b`, each with a `false` subschema, declared
in the order `a`, `b`. -/
def orderingProps : List (String × SchemaNode) :=
  [("a", falseNode [Seg.key "properties", Seg.key "a"]),
   ("b", falseNode [Seg.key "properties", Seg.key "b"])]

/-- An instance whose insertion order `b`, `a` reverses the schema
declaration order. -/
def orderingFields : List (String × Json) :=
  [("b", Json.num (.int 1)), ("a", Json.num (.int 2))]

/-- The key-indexed blocks shared by the two `properties` iteration
orders: the schema-order traversal of the linear-scan validator. -/
def smallTriples (properties : List (String × SchemaNode))
    (fields : List (String × Json)) : List (String × SchemaNode × Json) :=
  properties.filterMap (fun p => (mapGet fields p.1).map (fun v => (p.1, p.2, v)))

/-- The instance-order traversal of the hash-map validator. -/
def bigTriples (properties : List (String × SchemaNode))
    (fields : List (String × Json)) : List (String × SchemaNode × Json) :=
  fields.filterMap (fun kv => (mapGet properties kv.1).map (fun n => (kv.1, n, kv.2)))

/-! #### The schema of the unevaluated-properties marking claim

Schema (draft 2020-12):
`{"anyOf": [{"properties": {"a": true}},
            {"properties": {"b": true}, "required": ["c"]}],
  "unevaluatedProperties": false}`;
instance `{"a": 1, "b": 2}`.  The second `anyOf` branch is unsatisfied
(`"c"` is missing), and `"b"` is covered by no other keyword. -/

/-- Sidecar filter of the first `anyOf` branch. -/
def c3Branch1Filter : PropsFilter :=
  .mk none none [("a", trueNode)] [] [] none none none none none none

/-- Compiled schema of the first `anyOf` branch. -/
def c3Branch1Node : SchemaNode := smallPropertiesNode [("a", trueNode)]

/-- Sidecar filter of the second `anyOf` branch (`required` contributes no
property marking). -/
def c3Branch2Filter : PropsFilter :=
  .mk none none [("b", trueNode)] [] [] none none none none none none

/-- Compiled schema of the second `anyOf` branch: `required: ["c"]` then
`properties: {"b": true}`. -/
def c3Branch2Node : SchemaNode :=
  seqNode (singleRequiredNode "c" [Seg.key "anyOf", Seg.idx 1, Seg.key "required"])
    (smallPropertiesNode [("b", trueNode)])

/-- The schema location of the `unevaluatedProperties` keyword in the
marking claim's schema. -/
def c3Loc : Location := [Seg.key "unevaluatedProperties"]

/-- Top-level sidecar filter of the marking claim's schema: an `anyOf`
with the two branches and `unevaluatedProperties: false`. -/
def c3Filter : PropsFilter :=
  .mk (some (falseNode c3Loc)) none [] [] [] none none none none
    (some [(c3Branch1Node, c3Branch1Filter), (c3Branch2Node, c3Branch2Filter)]) none

/-- The instance `{"a": 1, "b": 2}` of the marking claim. -/
def c3Instance : Json :=
  Json.obj [("a", Json.num (.int 1)), ("b", Json.num (.int 2))]

/-! #### The schema of the unevaluated-properties grouping scenario

Schema `{"allOf": [{"properties": {"a": true}}],
"unevaluatedProperties": false}`; instance `{"a": 1, "b": 2}`. -/

/-- Sidecar filter of the single `allOf` branch. -/
def c4BranchFilter : PropsFilter :=
  .mk none none [("a", trueNode)] [] [] none none none none none none

/-- Compiled schema of the single `allOf` branch. -/
def c4BranchNode : SchemaNode := smallPropertiesNode [("a", trueNode)]

/-- The schema location of the `unevaluatedProperties` keyword in the
grouping scenario's schema. -/
def c4Loc : Location := [Seg.key "unevaluatedProperties"]

/-- Top-level sidecar filter of the grouping scenario's schema. -/
def c4Filter : PropsFilter :=
  .mk (some (falseNode c4Loc)) none [] [] [] none none none
    (some [(c4BranchNode, c4BranchFilter)]) none none

/-- The instance `{"a": 1, "b": 2}` of the grouping scenario. -/
def c4Instance : Json :=
  Json.obj [("a", Json.num (.int 1)), ("b", Json.num (.int 2))]

/-! ### Claim theorems -/

/-- C1: the specialized `required` validators break the verdict-consistency
property on duplicate required names.  For the schema
`{"required": ["a", "a"]}` (accepted by `required::compile_with_path`) and
the instance `{"a": 1}`, `is_valid` answers `false` through the object-size
shortcut (`item.len() < required.len()`, resp. `item.len() >= 2`), while
`validate` returns `Ok` and `iter_errors` yields no errors because every
listed name is present; the fused properties-plus-required validator's
`evaluate` even reports a valid result for the same instance.  The four
entry points therefore disagree, refuting the claimed equivalence. -/
theorem required_duplicate_names_break_consistency :
    required_compile_choice [Json.str "a", Json.str "a"] = .two ∧
    Required2Validator.is_valid "a" "a" (Json.obj [("a", Json.num (.int 1))]) = false ∧
    Required2Validator.validate "a" "a" [Seg.key "required"] none
      (Json.obj [("a", Json.num (.int 1))]) [] = .ok () ∧
    Required2Validator.iter_errors "a" "a" [Seg.key "required"] none
      (Json.obj [("a", Json.num (.int 1))]) [] = [] ∧
    RequiredValidator.is_valid ["a", "a", "a", "a"]
      (Json.obj [("a", Json.num (.int 1))]) = false ∧
    RequiredValidator.validate ["a", "a", "a", "a"] [Seg.key "required"] none
      (Json.obj [("a", Json.num (.int 1))]) [] = .ok () ∧
    RequiredValidator.iter_errors ["a", "a", "a", "a"] [Seg.key "required"] none
      (Json.obj [("a", Json.num (.int 1))]) [] = [] ∧
    SmallPropertiesWithRequired2Validator.is_valid [] "a" "a"
      (Json.obj [("a", Json.num (.int 1))]) = false ∧
    SmallPropertiesWithRequired2Validator.validate [] "a" "a" [Seg.key "required"]
      none (Json.obj [("a", Json.num (.int 1))]) [] = .ok () ∧
    (SmallPropertiesWithRequired2Validator.evaluate [] "a" "a"
      (Json.obj [("a", Json.num (.int 1))]) []).valid = true :=
  ⟨rfl, rfl, rfl, rfl, rfl, rfl, rfl, rfl, rfl, rfl⟩

/-- C3: for the satisfied 2020-12 schema
`{"anyOf": [{"properties": {"a": true}},
{"properties": {"b": true}, "required": ["c"]}],
"unevaluatedProperties": false}` and the instance `{"a": 1, "b": 2}`, the
second `anyOf` branch is unsatisfied, yet the sidecar filter marks `"b"`
evaluated (the `anyOf` arm marks through every branch filter as soon as one
branch schema accepts), so the validator accepts the instance.  Under the
claimed marking (only a satisfied branch applies), only `"a"` would be
marked and `unevaluatedProperties: false` would reject the instance. -/
theorem unsatisfied_anyof_branch_marks_properties :
    c3Branch1Node.is_valid c3Instance = true ∧
    c3Branch2Node.is_valid c3Instance = false ∧
    c3Filter.mark_evaluated_properties c3Instance [] = ["a", "b"] ∧
    UnevaluatedPropertiesValidator.is_valid c3Filter c3Instance = true ∧
    UnevaluatedPropertiesValidator.validate c3Filter c3Loc c3Instance [] = .ok () :=
  ⟨rfl, rfl, by decide, by decide, rfl⟩

/-- C4: for the schema
`{"allOf": [{"properties": {"a": true}}], "unevaluatedProperties": false}`
and the instance `{"a": 1, "b": 2}`, validation is invalid; the satisfied
`allOf` branch yields no errors, and all failing not-evaluated properties
are grouped into exactly one error of kind `UnevaluatedProperties` whose
unexpected-names payload is `["b"]`. -/
theorem unevaluated_properties_single_grouped_error :
    UnevaluatedPropertiesValidator.is_valid c4Filter c4Instance = false ∧
    UnevaluatedPropertiesValidator.validate c4Filter c4Loc c4Instance [] =
      .error ⟨c4Loc, c4Loc, [], .unevaluatedProps ["b"]⟩ ∧
    c4BranchNode.iter_errors c4Instance [] ++
      UnevaluatedPropertiesValidator.iter_errors c4Filter c4Loc c4Instance [] =
      [⟨c4Loc, c4Loc, [], .unevaluatedProps ["b"]⟩] :=
  ⟨by decide, rfl, by decide⟩

/-- C5: the instance `1.0` (a decimal with zero fractional part) satisfies
`{"type": "integer"}` under drafts 6, 7, 2019-09 and 2020-12 but not under
draft 4; as an `items` subschema, `items::compile` selects the draft-4
integer validator exactly for draft 4, and on the instance `[1.0]` the two
validators disagree accordingly. -/
theorem draft4_integer_decimal_distinction :
    type_is_integer (.dec 1) = true ∧
    type_draft4_is_integer (.dec 1) = false ∧
    items_compile_simple_choice .draft4 (Json.obj [("type", Json.str "integer")]) =
      .integerTypeDraft4 ∧
    items_compile_simple_choice .draft6 (Json.obj [("type", Json.str "integer")]) =
      .integerType ∧
    items_compile_simple_choice .draft7 (Json.obj [("type", Json.str "integer")]) =
      .integerType ∧
    items_compile_simple_choice .draft201909 (Json.obj [("type", Json.str "integer")]) =
      .integerType ∧
    items_compile_simple_choice .draft202012 (Json.obj [("type", Json.str "integer")]) =
      .integerType ∧
    ItemsIntegerTypeValidator.is_valid (Json.arr [Json.num (.dec 1)]) = true ∧
    ItemsIntegerTypeValidator.iter_errors [Seg.key "items", Seg.key "type"] none
      (Json.arr [Json.num (.dec 1)]) [] = [] ∧
    ItemsIntegerTypeValidatorDraft4.is_valid (Json.arr [Json.num (.dec 1)]) = false ∧
    ItemsIntegerTypeValidatorDraft4.iter_errors [Seg.key "items", Seg.key "type"] none
      (Json.arr [Json.num (.dec 1)]) [] =
      [⟨[Seg.key "items", Seg.key "type"], [Seg.key "items", Seg.key "type"],
        [Seg.idx 0], .typeMismatch .integer⟩] :=
  ⟨by decide, by decide, by decide, by decide, by decide, by decide, by decide,
   by decide, by decide, by decide, by decide⟩

/-- C6: for the schema `{"required": ["a", "b"]}` (compiled to the
two-name validator), the instance `{"a": 1}` is invalid with exactly one
`Required` error whose payload property is `"b"` (both through `validate`
and `iter_errors`), and the instance `{}` yields exactly two errors with
payload properties `"a"` then `"b"` in that order. -/
theorem required_two_names_error_payloads :
    required_compile_choice [Json.str "a", Json.str "b"] = .two ∧
    Required2Validator.is_valid "a" "b" (Json.obj [("a", Json.num (.int 1))]) = false ∧
    Required2Validator.validate "a" "b" [Seg.key "required"] none
      (Json.obj [("a", Json.num (.int 1))]) [] =
      .error ⟨[Seg.key "required"], [Seg.key "required"], [], .required "b"⟩ ∧
    Required2Validator.iter_errors "a" "b" [Seg.key "required"] none
      (Json.obj [("a", Json.num (.int 1))]) [] =
      [⟨[Seg.key "required"], [Seg.key "required"], [], .required "b"⟩] ∧
    Required2Validator.iter_errors "a" "b" [Seg.key "required"] none
      (Json.obj []) [] =
      [⟨[Seg.key "required"], [Seg.key "required"], [], .required "a"⟩,
       ⟨[Seg.key "required"], [Seg.key "required"], [], .required "b"⟩] :=
  ⟨by decide, by decide, rfl, by decide, by decide⟩

/-- C7, counterexample: in the `list` output mode the CLI reads an
instance file with extension `.yaml` with the JSON-only reader, refuting
"parsed as YAML regardless of the selected output mode". -/
theorem yaml_instance_not_parsed_in_list_mode :
    ¬ instance_reader_for Output.list (some "yaml") = ReaderKind.yamlReader :=
  by decide

/-- C7, amended: an instance file is parsed as YAML exactly when the
output mode is `text` and its extension is `.yaml`/`.yml`; the structured
modes read instances with the JSON-only reader, and the schema is always
read as JSON in every mode. -/
theorem yaml_instances_only_in_text_mode (output : Output) (ext : Option String) :
    (instance_reader_for output ext = ReaderKind.yamlReader ↔
      output = Output.text ∧ extensionIsYaml ext = true) ∧
    schema_reader_for output ext = ReaderKind.jsonOnly := by
  refine ⟨?_, rfl⟩
  cases output <;> cases h : extensionIsYaml ext <;>
    simp [instance_reader_for, read_json_or_yaml_reader, h]

/-- C8: the CLI exits 0 exactly when the schema built and every requested
validation passed; it exits 1 when some validation failed, and on an
internal error it exits 1 printing `Error: <msg>`. -/
theorem cli_exit_codes (buildOk : Bool) (verdicts : List Bool) (e : String) :
    (main_outcome (.ok (validate_instances_success buildOk verdicts)) =
        ⟨0, none⟩ ↔ buildOk = true ∧ ∀ v ∈ verdicts, v = true) ∧
    ((buildOk = false ∨ ∃ v ∈ verdicts, v = false) →
      main_outcome (.ok (validate_instances_success buildOk verdicts)) = ⟨1, none⟩) ∧
    main_outcome (.error e) = ⟨1, some ("Error: " ++ e)⟩ := by
  have hs : validate_instances_success buildOk verdicts = true ↔
      buildOk = true ∧ ∀ v ∈ verdicts, v = true := by
    simp [validate_instances_success, List.all_eq_true]
  refine ⟨?_, ?_, rfl⟩
  · cases h : validate_instances_success buildOk verdicts
    · simp only [main_outcome, CliOutcome.mk.injEq]
      constructor
      · intro hcontra
        exact absurd hcontra.1 (by decide)
      · intro hok
        have : (false : Bool) = true := h ▸ hs.mpr hok
        exact absurd this (by decide)
    · exact ⟨fun _ => hs.mp h, fun _ => rfl⟩
  · intro hfail
    have h : validate_instances_success buildOk verdicts = false := by
      cases hx : validate_instances_success buildOk verdicts
      · rfl
      · exfalso
        rcases hs.mp hx with ⟨hb, hv⟩
        rcases hfail with hb2 | ⟨v, hvmem, hvfalse⟩
        · rw [hb] at hb2; exact Bool.noConfusion hb2
        · have hvt := hv v hvmem
          rw [hvt] at hvfalse; exact Bool.noConfusion hvfalse
    rw [h]
    rfl

/-! ### Shared lemmas for the properties iteration-order claim -/

/-- Mapping an option-guarded block over a list and flattening equals
filter-mapping the guards and flat-mapping the blocks. -/
theorem flatten_map_guard_eq_flatMap {α β γ : Type} (l : List α)
    (g : α → Option β) (h : β → List γ) (f : α → List γ)
    (hf : ∀ a, f a = match g a with | some b => h b | none => []) :
    (l.map f).flatten = (l.filterMap g).flatMap h := by
  induction l with
  | nil => simp
  | cons a rest ih =>
    rw [List.map_cons, List.flatten_cons, List.filterMap_cons, hf a]
    cases hg : g a <;> simp [hg, ih]

/-- The linear-scan `properties` error sequence is the schema-order
traversal of the shared key-indexed blocks. -/
theorem small_iter_errors_eq_flatMap (properties : List (String × SchemaNode))
    (fields : List (String × Json)) (loc : Location) :
    SmallPropertiesValidator.iter_errors properties (.obj fields) loc =
      (smallTriples properties fields).flatMap
        (fun t => t.2.1.iter_errors t.2.2 (loc ++ [Seg.key t.1])) := by
  rw [SmallPropertiesValidator.iter_errors, smallTriples]
  apply flatten_map_guard_eq_flatMap
  intro p
  cases hg : mapGet fields p.1 <;> simp [hg]

/-- The hash-map `properties` error sequence is the instance-order
traversal of the shared key-indexed blocks. -/
theorem big_iter_errors_eq_flatMap (properties : List (String × SchemaNode))
    (fields : List (String × Json)) (loc : Location) :
    BigPropertiesValidator.iter_errors properties (.obj fields) loc =
      (bigTriples properties fields).flatMap
        (fun t => t.2.1.iter_errors t.2.2 (loc ++ [Seg.key t.1])) := by
  rw [BigPropertiesValidator.iter_errors, bigTriples]
  apply flatten_map_guard_eq_flatMap
  intro kv
  cases hg : mapGet properties kv.1 <;> simp [hg]

/-- With duplicate-free keys, association-list lookup agrees with
membership. -/
theorem mapGet_eq_some_iff_mem {α : Type} (l : List (String × α)) (k : String)
    (v : α) (nd : (l.map Prod.fst).Nodup) :
    mapGet l k = some v ↔ (k, v) ∈ l := by
  induction l with
  | nil => simp [mapGet]
  | cons kv rest ih =>
    obtain ⟨k0, v0⟩ := kv
    simp only [List.map_cons, List.nodup_cons] at nd
    rw [mapGet]
    by_cases hk : k0 = k
    · subst hk
      rw [if_pos rfl]
      constructor
      · intro hv
        have hv' : v0 = v := Option.some.inj hv
        rw [← hv']
        exact List.mem_cons_self _ _
      · intro hmem
        rcases List.mem_cons.mp hmem with heq | hmem
        · have hv' : v = v0 := congrArg Prod.snd heq
          rw [hv']
        · exact absurd (List.mem_map.mpr ⟨(k0, v), hmem, rfl⟩) nd.1
    · rw [if_neg hk, ih nd.2]
      constructor
      · exact fun hmem => List.mem_cons_of_mem _ hmem
      · intro hmem
        rcases List.mem_cons.mp hmem with heq | hmem
        · exact absurd (congrArg Prod.fst heq).symm hk
        · exact hmem

/-- Membership characterization of the schema-order triples. -/
theorem mem_smallTriples_iff (properties : List (String × SchemaNode))
    (fields : List (String × Json)) (k : String) (n : SchemaNode) (v : Json)
    (ndP : (properties.map Prod.fst).Nodup)
    (_ndF : (fields.map Prod.fst).Nodup) :
    (k, n, v) ∈ smallTriples properties fields ↔
      mapGet properties k = some n ∧ mapGet fields k = some v := by
  simp only [smallTriples, List.mem_filterMap, Option.map_eq_some', Prod.mk.injEq]
  constructor
  · rintro ⟨⟨pk, pn⟩, hmem, v0, hget, hk, hn, hv⟩
    constructor
    · rw [← hk, ← hn]
      exact (mapGet_eq_some_iff_mem properties pk pn ndP).mpr hmem
    · rw [← hk, ← hv]
      exact hget
  · rintro ⟨hgp, hgf⟩
    exact ⟨(k, n), (mapGet_eq_some_iff_mem properties k n ndP).mp hgp,
      v, hgf, rfl, rfl, rfl⟩

/-- Membership characterization of the instance-order triples. -/
theorem mem_bigTriples_iff (properties : List (String × SchemaNode))
    (fields : List (String × Json)) (k : String) (n : SchemaNode) (v : Json)
    (_ndP : (properties.map Prod.fst).Nodup)
    (ndF : (fields.map Prod.fst).Nodup) :
    (k, n, v) ∈ bigTriples properties fields ↔
      mapGet properties k = some n ∧ mapGet fields k = some v := by
  simp only [bigTriples, List.mem_filterMap, Option.map_eq_some', Prod.mk.injEq]
  constructor
  · rintro ⟨⟨fk, fv⟩, hmem, n0, hget, hk, hn, hv⟩
    constructor
    · rw [← hk, ← hn]
      exact hget
    · rw [← hk, ← hv]
      exact (mapGet_eq_some_iff_mem fields fk fv ndF).mpr hmem
  · rintro ⟨hgp, hgf⟩
    exact ⟨(k, v), (mapGet_eq_some_iff_mem fields k v ndF).mp hgf,
      n, hgp, rfl, rfl, rfl⟩

/-- With duplicate-free keys on both sides, the schema-order and
instance-order traversals enumerate the same key-indexed blocks up to
permutation. -/
theorem triples_perm (properties : List (String × SchemaNode))
    (fields : List (String × Json))
    (ndP : (properties.map Prod.fst).Nodup)
    (ndF : (fields.map Prod.fst).Nodup) :
    List.Perm (smallTriples properties fields) (bigTriples properties fields) := by
  have hinjS : ∀ (a a' : String × SchemaNode) (b : String × SchemaNode × Json),
      b ∈ (fun p => (mapGet fields p.1).map (fun v => (p.1, p.2, v))) a →
      b ∈ (fun p => (mapGet fields p.1).map (fun v => (p.1, p.2, v))) a' →
      a = a' := by
    intro a a' b hb hb'
    simp only [Option.mem_def, Option.map_eq_some'] at hb hb'
    obtain ⟨v, _, hv⟩ := hb
    obtain ⟨v', _, hv'⟩ := hb'
    have h1 : a = (b.1, b.2.1) := by rw [← hv]
    have h2 : a' = (b.1, b.2.1) := by rw [← hv']
    rw [h1, h2]
  have hinjB : ∀ (a a' : String × Json) (b : String × SchemaNode × Json),
      b ∈ (fun kv => (mapGet properties kv.1).map (fun n => (kv.1, n, kv.2))) a →
      b ∈ (fun kv => (mapGet properties kv.1).map (fun n => (kv.1, n, kv.2))) a' →
      a = a' := by
    intro a a' b hb hb'
    simp only [Option.mem_def, Option.map_eq_some'] at hb hb'
    obtain ⟨n, _, hn⟩ := hb
    obtain ⟨n', _, hn'⟩ := hb'
    have h1 : a = (b.1, b.2.2) := by rw [← hn]
    have h2 : a' = (b.1, b.2.2) := by rw [← hn']
    rw [h1, h2]
  have ndS : (smallTriples properties fields).Nodup :=
    List.Nodup.filterMap hinjS (List.Nodup.of_map Prod.fst ndP)
  have ndB : (bigTriples properties fields).Nodup :=
    List.Nodup.filterMap hinjB (List.Nodup.of_map Prod.fst ndF)
  rw [List.perm_ext_iff_of_nodup ndS ndB]
  intro t
  obtain ⟨k, n, v⟩ := t
  rw [mem_smallTriples_iff properties fields k n v ndP ndF,
    mem_bigTriples_iff properties fields k n v ndP ndF]

/-- C2, counterexample: for the schema properties `a`, `b` (both `false`
subschemas, declared in that order) and the instance
`{"b": 1, "a": 2}`, the linear-scan validator reports the `a` error before
the `b` error while the hash-map validator reports them in the opposite
order — the two error sequences differ, refuting "identically ordered
error sequences for the same instance". -/
theorem properties_variants_error_order_differs :
    SmallPropertiesValidator.iter_errors orderingProps (.obj orderingFields) [] ≠
      BigPropertiesValidator.iter_errors orderingProps (.obj orderingFields) [] :=
  by decide

/-- C2, amended: for every `properties` map with duplicate-free keys and
every object instance with duplicate-free keys, the linear-scan and
hash-map validators report the same errors up to order (the same multiset,
hence the same count and kinds, and per covered property the identical
error block); the sequence order differs in general — schema declaration
order for the linear scan versus instance insertion order for the hash
map. -/
theorem properties_variants_same_error_multiset
    (properties : List (String × SchemaNode)) (fields : List (String × Json))
    (loc : Location) (ndP : (properties.map Prod.fst).Nodup)
    (ndF : (fields.map Prod.fst).Nodup) :
    List.Perm (SmallPropertiesValidator.iter_errors properties (.obj fields) loc)
      (BigPropertiesValidator.iter_errors properties (.obj fields) loc) := by
  rw [small_iter_errors_eq_flatMap, big_iter_errors_eq_flatMap]
  exact (triples_perm properties fields ndP ndF).flatMap_right _

/-- C2, witness for the amended claim at the counterexample inputs: the
keys are duplicate-free and the two error sequences are permutations of
each other. -/
theorem properties_variants_same_error_multiset_witness :
    List.Perm (SmallPropertiesValidator.iter_errors orderingProps (.obj orderingFields) [])
      (BigPropertiesValidator.iter_errors orderingProps (.obj orderingFields) []) :=
  properties_variants_same_error_multiset orderingProps orderingFields []
    (by decide) (by decide)

/-- An empty sidecar filter (a subschema with `unevaluatedProperties`
absent), used as a witness instantiation. -/
def emptyFilter : PropsFilter :=
  .mk none none [] [] [] none none none none none none

/-- C9: every object-applicable validator (the `required` variants, the
`properties` variants, `unevaluatedProperties`) accepts any non-object
instance through all entry points, and every array-applicable validator
(`items`, `prefixItems`) accepts any non-array instance. -/
theorem non_applicable_instances_accepted
    (required : List String) (value first second third : String)
    (selfLoc loc : Location) (tracker : Option RefTracker)
    (properties : List (String × SchemaNode)) (filter : PropsFilter)
    (node : SchemaNode) (schemas : List SchemaNode) (j : Json) :
    (j.isObj = false →
      RequiredValidator.is_valid required j = true ∧
      RequiredValidator.validate required selfLoc tracker j loc = .ok () ∧
      RequiredValidator.iter_errors required selfLoc tracker j loc = [] ∧
      SingleItemRequiredValidator.is_valid value j = true ∧
      Required2Validator.is_valid first second j = true ∧
      Required2Validator.validate first second selfLoc tracker j loc = .ok () ∧
      Required2Validator.iter_errors first second selfLoc tracker j loc = [] ∧
      Required3Validator.is_valid first second third j = true ∧
      SmallPropertiesValidator.is_valid properties j = true ∧
      SmallPropertiesValidator.validate properties j loc = .ok () ∧
      SmallPropertiesValidator.iter_errors properties j loc = [] ∧
      BigPropertiesValidator.is_valid properties j = true ∧
      BigPropertiesValidator.validate properties j loc = .ok () ∧
      BigPropertiesValidator.iter_errors properties j loc = [] ∧
      SmallPropertiesWithRequired2Validator.is_valid properties first second j = true ∧
      SmallPropertiesWithRequired2Validator.validate properties first second
        selfLoc tracker j loc = .ok () ∧
      SmallPropertiesWithRequired2Validator.iter_errors properties first second
        selfLoc tracker j loc = [] ∧
      UnevaluatedPropertiesValidator.is_valid filter j = true ∧
      UnevaluatedPropertiesValidator.validate filter selfLoc j loc = .ok () ∧
      UnevaluatedPropertiesValidator.iter_errors filter selfLoc j loc = []) ∧
    (j.isArr = false →
      ItemsObjectValidator.is_valid node j = true ∧
      ItemsObjectValidator.validate node j loc = .ok () ∧
      ItemsObjectValidator.iter_errors node j loc = [] ∧
      ItemsIntegerTypeValidator.is_valid j = true ∧
      ItemsIntegerTypeValidator.iter_errors selfLoc tracker j loc = [] ∧
      ItemsIntegerTypeValidatorDraft4.is_valid j = true ∧
      ItemsIntegerTypeValidatorDraft4.iter_errors selfLoc tracker j loc = [] ∧
      PrefixItemsValidator.is_valid schemas j = true ∧
      PrefixItemsValidator.validate schemas j loc = .ok () ∧
      PrefixItemsValidator.iter_errors schemas j loc = []) := by
  constructor
  · intro h
    cases j with
    | obj fields => exact absurd h (by simp [Json.isObj])
    | null =>
      exact ⟨rfl, rfl, rfl, rfl, rfl, rfl, rfl, rfl, rfl, rfl, rfl, rfl, rfl, rfl,
        rfl, rfl, rfl, rfl, rfl, rfl⟩
    | bool b =>
      exact ⟨rfl, rfl, rfl, rfl, rfl, rfl, rfl, rfl, rfl, rfl, rfl, rfl, rfl, rfl,
        rfl, rfl, rfl, rfl, rfl, rfl⟩
    | num n =>
      exact ⟨rfl, rfl, rfl, rfl, rfl, rfl, rfl, rfl, rfl, rfl, rfl, rfl, rfl, rfl,
        rfl, rfl, rfl, rfl, rfl, rfl⟩
    | str s =>
      exact ⟨rfl, rfl, rfl, rfl, rfl, rfl, rfl, rfl, rfl, rfl, rfl, rfl, rfl, rfl,
        rfl, rfl, rfl, rfl, rfl, rfl⟩
    | arr items =>
      exact ⟨rfl, rfl, rfl, rfl, rfl, rfl, rfl, rfl, rfl, rfl, rfl, rfl, rfl, rfl,
        rfl, rfl, rfl, rfl, rfl, rfl⟩
  · intro h
    cases j with
    | arr items => exact absurd h (by simp [Json.isArr])
    | null => exact ⟨rfl, rfl, rfl, rfl, rfl, rfl, rfl, rfl, rfl, rfl⟩
    | bool b => exact ⟨rfl, rfl, rfl, rfl, rfl, rfl, rfl, rfl, rfl, rfl⟩
    | num n => exact ⟨rfl, rfl, rfl, rfl, rfl, rfl, rfl, rfl, rfl, rfl⟩
    | str s => exact ⟨rfl, rfl, rfl, rfl, rfl, rfl, rfl, rfl, rfl, rfl⟩
    | obj fields => exact ⟨rfl, rfl, rfl, rfl, rfl, rfl, rfl, rfl, rfl, rfl⟩

/-- C9, witness at the non-object, non-array instance `"x"`. -/
theorem non_applicable_instances_accepted_witness :
    RequiredValidator.is_valid ["a", "b"] (Json.str "x") = true ∧
    ItemsObjectValidator.is_valid trueNode (Json.str "x") = true :=
  ⟨((non_applicable_instances_accepted ["a", "b"] "a" "a" "b" "c" [] [] none []
      emptyFilter trueNode [] (Json.str "x")).1 rfl).1,
   ((non_applicable_instances_accepted ["a", "b"] "a" "a" "b" "c" [] [] none []
      emptyFilter trueNode [] (Json.str "x")).2 rfl).1⟩

/-- C10: whenever an object instance lacks one of the two fused required
names, `SmallPropertiesWithRequired2Validator::evaluate` returns
`invalid_empty(Vec::new())` — invalid, with no error descriptions, no
annotations and no child results — while `iter_errors` on the same
instance is non-empty and starts with a `Required` error for a missing
name; and `properties::compile` does select the fused validator for a
parent with `required: ["a", "b"]`, no `patternProperties` and no
`additionalProperties`. -/
theorem fused_evaluate_invalid_without_details
    (properties : List (String × SchemaNode)) (first second : String)
    (required_location loc : Location) (tracker : Option RefTracker)
    (fields : List (String × Json))
    (h : containsKey fields first = false ∨ containsKey fields second = false) :
    ((SmallPropertiesWithRequired2Validator.evaluate properties first second
        (.obj fields) loc).valid = false ∧
      (SmallPropertiesWithRequired2Validator.evaluate properties first second
        (.obj fields) loc).errors = [] ∧
      (SmallPropertiesWithRequired2Validator.evaluate properties first second
        (.obj fields) loc).anns = none ∧
      (SmallPropertiesWithRequired2Validator.evaluate properties first second
        (.obj fields) loc).children = [] ∧
      ∃ p rest, SmallPropertiesWithRequired2Validator.iter_errors properties first
          second required_location tracker (.obj fields) loc =
        (⟨required_location, capture_evaluation_path tracker required_location,
          loc, .required p⟩ : VError) :: rest ∧ (p = first ∨ p = second)) ∧
    properties_compile_choice
      [("properties", Json.obj [("a", Json.bool true)]),
       ("required", Json.arr [Json.str "a", Json.str "b"])]
      (Json.obj [("a", Json.bool true)]) = .fusedWithRequired2 "a" "b" := by
  refine ⟨?_, by decide⟩
  have hcond : (!(containsKey fields first) || !(containsKey fields second)) = true := by
    rcases h with h1 | h2
    · rw [h1]; rfl
    · rw [h2]; simp
  refine ⟨?_, ?_, ?_, ?_, ?_⟩
  · rw [SmallPropertiesWithRequired2Validator.evaluate, if_pos hcond]; rfl
  · rw [SmallPropertiesWithRequired2Validator.evaluate, if_pos hcond]; rfl
  · rw [SmallPropertiesWithRequired2Validator.evaluate, if_pos hcond]; rfl
  · rw [SmallPropertiesWithRequired2Validator.evaluate, if_pos hcond]; rfl
  · by_cases hf : containsKey fields first = true
    · have hs : containsKey fields second = false := by
        rcases h with h1 | h2
        · rw [hf] at h1; exact Bool.noConfusion h1
        · exact h2
      refine ⟨second,
        (properties.map (fun p =>
          match mapGet fields p.1 with
          | some prop => p.2.iter_errors prop (loc ++ [Seg.key p.1])
          | none => [])).flatten, ?_, Or.inr rfl⟩
      rw [SmallPropertiesWithRequired2Validator.iter_errors]
      simp [hf, hs]
    · have hf0 : containsKey fields first = false := by
        cases hx : containsKey fields first
        · rfl
        · exact absurd hx hf
      refine ⟨first,
        (if !(containsKey fields second) then
          [⟨required_location, capture_evaluation_path tracker required_location,
            loc, .required second⟩] else []) ++
        (properties.map (fun p =>
          match mapGet fields p.1 with
          | some prop => p.2.iter_errors prop (loc ++ [Seg.key p.1])
          | none => [])).flatten, ?_, Or.inl rfl⟩
      rw [SmallPropertiesWithRequired2Validator.iter_errors]
      simp [hf0]

/-- C10, witness at the instance `{"b": 1}` missing the first required
name `"a"`. -/
theorem fused_evaluate_invalid_without_details_witness :
    (SmallPropertiesWithRequired2Validator.evaluate [] "a" "b"
      (Json.obj [("b", Json.num (.int 1))]) []).valid = false :=
  ((fused_evaluate_invalid_without_details [] "a" "b" [Seg.key "required"] []
    none [("b", Json.num (.int 1))] (Or.inl rfl)).1).1

/-- C8, witness: a run with one failing verdict exits 1, and an internal
error prints the message and exits 1. -/
theorem cli_exit_codes_witness :
    main_outcome (.ok (validate_instances_success true [true, false])) = ⟨1, none⟩ ∧
    main_outcome (.error "boom") = ⟨1, some ("Error: " ++ "boom")⟩ :=
  ⟨(cli_exit_codes true [true, false] "boom").2.1 (Or.inr ⟨false, by decide, rfl⟩),
   (cli_exit_codes true [true, false] "boom").2.2⟩

/-- C7, witness for the amended claim: in text mode a `.yml` instance is
read with the YAML reader. -/
theorem yaml_instances_only_in_text_mode_witness :
    instance_reader_for Output.text (some "yml") = ReaderKind.yamlReader :=
  (yaml_instances_only_in_text_mode Output.text (some "yml")).1.mpr ⟨rfl, by decide⟩
